import Mathlib

/-!
Verification of the xgfone/messageapi repository: a shallow embedding in
Lean 4 of the provider registry (messageapi package), the configuration
manager (app.ResetConfig and the /v1/config handler) and the request
dispatcher (app.sendEmail / app.sendSMS / app.handleRequestArgs), together
with theorems settling the specification claims about them.

Conventions of the embedding:
- Go maps are association lists (`List (String × _)`); iteration order of a
  Go map is unspecified, so theorems never depend on a particular order.
- A provider (Go interfaces messageapi.Email / messageapi.SMS) is a pair of
  a Load behaviour (raw configuration -> optional error) and a Send oracle
  giving the outcome of the k-th send attempt for the request's message
  (none = success, some e = transport error e); the concrete message payload
  and the network are abstracted into the oracle.
- Errors are strings; fallible Go functions returning (T, error) become
  `Except Err T` or a product with an `Option Err` component.
-/

namespace MessageApi

abbrev Err := String

/-- Raw provider configuration: Go `map[string]string`. -/
abbrev RawConf := List (String × String)

/-- First-match association-list lookup, modelling Go map indexing `m[k]`. -/
def mlookup {α : Type} : List (String × α) → String → Option α
  | [], _ => none
  | (k, v) :: rest, key => if k = key then some v else mlookup rest key

/-- A provider instance: its Load behaviour and its Send outcome oracle
(outcome of the k-th send attempt on the request's message). -/
structure Prov where
  load : RawConf → Option Err
  send : Nat → Option Err

/-- app.Config (src/unnamed/part_002 lines 11-38): public json fields,
the unexported admin `key`, and the resolved provider maps `emails`/`smses`
set by ResetConfig. -/
structure Config where
  allowGet : Bool
  ignoreNotSupportedProvider : Bool
  defaultSMSProvider : String
  defaultEmailProvider : String
  Emails : List (String × RawConf)
  SMSes : List (String × RawConf)
  key : String
  emails : List (String × Prov)
  smses : List (String × Prov)

/-- app.NewDefaultConfig (src/unnamed/part_002 lines 46-51). -/
def NewDefaultConfig (key : String) : Config :=
  { allowGet := false
    ignoreNotSupportedProvider := false
    defaultSMSProvider := ""
    defaultEmailProvider := "plain"
    Emails := []
    SMSes := []
    key := key
    emails := []
    smses := [] }

/-! ## Provider registry (messageapi package, src/README.md lines 184-227)

Go keeps two package-level maps and panics on duplicate registration; the
panic is modelled as an `Except.error` result (the process aborts, so no
updated registry is ever produced). -/

/-- messageapi.RegisterEmail: fails on a duplicate name, otherwise adds the
binding. -/
def RegisterEmail {α : Type} (emails : List (String × α)) (name : String)
    (e : α) : Except Err (List (String × α)) :=
  if (mlookup emails name).isSome then .error (name ++ " has been registered")
  else .ok (emails ++ [(name, e)])

/-- messageapi.RegisterSMS: fails on a duplicate name, otherwise adds the
binding. -/
def RegisterSMS {α : Type} (smses : List (String × α)) (name : String)
    (s : α) : Except Err (List (String × α)) :=
  if (mlookup smses name).isSome then .error (name ++ " has been registered")
  else .ok (smses ++ [(name, s)])

/-- A startup sequence of email registrations, aborting at the first
duplicate (the Go panic kills the process). -/
def registerAllEmails {α : Type} (reg : List (String × α)) :
    List (String × α) → Except Err (List (String × α))
  | [] => .ok reg
  | (n, e) :: rest =>
    match RegisterEmail reg n e with
    | .error er => .error er
    | .ok reg2 => registerAllEmails reg2 rest

/-- A startup sequence of sms registrations, aborting at the first
duplicate. -/
def registerAllSMSes {α : Type} (reg : List (String × α)) :
    List (String × α) → Except Err (List (String × α))
  | [] => .ok reg
  | (n, e) :: rest =>
    match RegisterSMS reg n e with
    | .error er => .error er
    | .ok reg2 => registerAllSMSes reg2 rest

/-! ## Request validation (src/unnamed/part_001 lines 168-241) -/

/-- app.Request: the arguments of a send request (internal fields `tos`
and `attachments` carry no information used by the claims). -/
structure Request where
  Provider : String
  Phone : String
  Content : String
  Subject : String
  To : String
  Attachments : List (String × String)
  Retry : Int
deriving DecidableEq

/-- Request.validate (lines 200-210): empty provider is rejected; a
negative retry is clamped to 0 (Go mutates the request in place, modelled
by returning the updated request). -/
def Request.validate (r : Request) : Except Err Request :=
  if r.Provider = "" then .error "the provider is empty"
  else .ok { r with Retry := if r.Retry < 0 then 0 else r.Retry }

/-- Request.validateEmail (lines 212-231): validate, then require nonempty
`to` and `subject`. -/
def Request.validateEmail (r : Request) : Except Err Request :=
  match r.validate with
  | .error e => .error e
  | .ok r1 =>
    if r1.To = "" then .error "the to is empty"
    else if r1.Subject = "" then .error "the subject is empty"
    else .ok r1

/-- Request.validateSMS (lines 233-241): validate, then require a nonempty
phone. -/
def Request.validateSMS (r : Request) : Except Err Request :=
  match r.validate with
  | .error e => .error e
  | .ok r1 =>
    if r1.Phone = "" then .error "the phone is empty"
    else .ok r1

/-! ## Default provider substitution (src/unnamed/part_001 lines 36-39 and
392-406) -/

/-- Hardcoded fallback default (src/unnamed/part_001 line 37). -/
def defaultSMSProvider : String := ""

/-- Hardcoded fallback default (src/unnamed/part_001 line 38). -/
def defaultEmailProvider : String := "plain"

/-- The `if args.Provider == ""` block of handleRequestArgs (lines
392-406): substitute the configured default, falling back to the hardcoded
default of the category. -/
def substProvider (isEmail : Bool) (snap : Config) (p : String) : String :=
  if p = "" then
    if isEmail then
      if snap.defaultEmailProvider ≠ "" then snap.defaultEmailProvider
      else defaultEmailProvider
    else
      if snap.defaultSMSProvider ≠ "" then snap.defaultSMSProvider
      else defaultSMSProvider
  else p

/-! ## Dispatcher (src/unnamed/part_001 lines 70-102 and 243-331) -/

/-- The `if args.Provider == "all"` loop of sendEmail/sendSMS (lines
264-271 and 310-316), with the running `err` variable as accumulator.
Input: the per-provider send outcomes in iteration order. Output: number
of send attempts made, the failures recorded by glog.Errorf in order, and
the final value of `err` (none means the handler writes no error). -/
def sendAllFrom : List (Option Err) → Option Err → Nat × List Err × Option Err
  | [], err => (0, [], err)
  | none :: _, _ => (1, [], none)
  | some e :: rest, _ =>
    match sendAllFrom rest (some e) with
    | (n, l, r) => (n + 1, e :: l, r)

/-- The "all" dispatch loop started with `var err error` (nil). -/
def sendAll (outs : List (Option Err)) : Nat × List Err × Option Err :=
  sendAllFrom outs none

/-- The `else if args.Retry >= 0` branch of sendEmail/sendSMS (lines
272-279 and 317-323): one send attempt on the resolved provider; on
failure `args.Retry` is decremented (and never read again — there is no
loop) and the error is kept. Output: attempts made and the final `err`. -/
def sendSingle (send : Nat → Option Err) (retry : Int) : Nat × Option Err :=
  if 0 ≤ retry then
    match send 0 with
    | none => (1, none)
    | some e => (1, some e)
  else (0, none)

/-- app.getEmail (lines 70-85): "all" collects every enabled provider of
the snapshot (possibly an empty, non-nil slice); a specific name resolves
to a one-element slice, or nil (`none`) when absent. -/
def getEmail (snap : Config) (name : String) : Option (List Prov) :=
  if name = "all" then some (snap.emails.map (fun q => q.2))
  else
    match mlookup snap.emails name with
    | some e => some [e]
    | none => none

/-- app.getSMS (lines 87-102), same shape over the sms map. -/
def getSMS (snap : Config) (name : String) : Option (List Prov) :=
  if name = "all" then some (snap.smses.map (fun q => q.2))
  else
    match mlookup snap.smses name with
    | some e => some [e]
    | none => none

/-- Outcome of a send handler, abstracting the HTTP status written. -/
inductive SendResult where
  /-- 501: no provider of the category is configured at all. -/
  | notImplemented
  /-- 400: validation error or unknown provider name. -/
  | badRequest (e : Err)
  /-- 500: every attempted send failed; carries the last error. -/
  | sendFailed (e : Err)
  /-- 200: the message was sent (or nothing remained to attempt). -/
  | success
deriving DecidableEq

/-- app.handleRequestArgs for an email request whose body already parsed
into `r` (lines 333-421): category emptiness check (501), default provider
substitution, then validation (400 on failure). -/
def handleArgsEmail (snap : Config) (r : Request) : Except SendResult Request :=
  if snap.emails.length > 0 then
    let r1 := { r with Provider := substProvider true snap r.Provider }
    match r1.validateEmail with
    | .error e => .error (.badRequest e)
    | .ok r2 => .ok r2
  else .error .notImplemented

/-- app.handleRequestArgs for an sms request whose body already parsed
into `r`. -/
def handleArgsSMS (snap : Config) (r : Request) : Except SendResult Request :=
  if snap.smses.length > 0 then
    let r1 := { r with Provider := substProvider false snap r.Provider }
    match r1.validateSMS with
    | .error e => .error (.badRequest e)
    | .ok r2 => .ok r2
  else .error .notImplemented

/-- The dispatch step shared by sendEmail and sendSMS after provider
resolution: the "all" loop, or the single-provider branch on the first
(only) element of the resolved slice. Indexing an empty slice would panic
in Go (recovered into a 500); that branch is unreachable from getEmail /
getSMS with a non-"all" name. -/
def dispatchProviders (providerName : String) (provs : List Prov)
    (retry : Int) : Nat × Option Err :=
  if providerName = "all" then
    match sendAll (provs.map (fun p => p.send 0)) with
    | (n, _, r) => (n, r)
  else
    match provs.head? with
    | none => (0, some "runtime error: index out of range")
    | some p => sendSingle p.send retry

/-- Observable outcome of one send request: the result written to the
client, whether provider resolution (getEmail/getSMS) ran, and how many
provider send calls were made. -/
structure PipeOut where
  result : SendResult
  lookedUp : Bool
  attempts : Nat
deriving DecidableEq

/-- app.sendEmail (lines 243-287). `snap1` is the snapshot read by
handleRequestArgs and `snap2` the one read by getEmail: the source takes
the global `config` pointer twice, once in each function, so a concurrent
ResetConfig between the two reads makes them differ. -/
def sendEmailPipeline (snap1 snap2 : Config) (r : Request) : PipeOut :=
  match handleArgsEmail snap1 r with
  | .error res => ⟨res, false, 0⟩
  | .ok args =>
    match getEmail snap2 args.Provider with
    | none =>
      ⟨.badRequest ("have no the email provider[" ++ args.Provider ++ "]"),
        true, 0⟩
    | some provs =>
      match dispatchProviders args.Provider provs args.Retry with
      | (n, none) => ⟨.success, true, n⟩
      | (n, some e) => ⟨.sendFailed e, true, n⟩

/-- app.sendSMS (lines 289-331), same shape over the sms category. -/
def sendSMSPipeline (snap1 snap2 : Config) (r : Request) : PipeOut :=
  match handleArgsSMS snap1 r with
  | .error res => ⟨res, false, 0⟩
  | .ok args =>
    match getSMS snap2 args.Provider with
    | none =>
      ⟨.badRequest ("have no the sms provider[" ++ args.Provider ++ "]"),
        true, 0⟩
    | some provs =>
      match dispatchProviders args.Provider provs args.Retry with
      | (n, none) => ⟨.success, true, n⟩
      | (n, some e) => ⟨.sendFailed e, true, n⟩

/-- Modelled from the spec (section 4.4): the email dispatcher with "the
snapshot in effect at request start (captured once, used for the whole
request lifetime even if configuration changes mid-flight)" — a single
snapshot parameter used for the argument phase and for resolution and
dispatch alike. -/
def sendEmailOneSnap (snap : Config) (r : Request) : PipeOut :=
  match handleArgsEmail snap r with
  | .error res => ⟨res, false, 0⟩
  | .ok args =>
    match getEmail snap args.Provider with
    | none =>
      ⟨.badRequest ("have no the email provider[" ++ args.Provider ++ "]"),
        true, 0⟩
    | some provs =>
      match dispatchProviders args.Provider provs args.Retry with
      | (n, none) => ⟨.success, true, n⟩
      | (n, some e) => ⟨.sendFailed e, true, n⟩

/-- Modelled from the spec (section 4.4): single-snapshot sms dispatcher. -/
def sendSMSOneSnap (snap : Config) (r : Request) : PipeOut :=
  match handleArgsSMS snap r with
  | .error res => ⟨res, false, 0⟩
  | .ok args =>
    match getSMS snap args.Provider with
    | none =>
      ⟨.badRequest ("have no the sms provider[" ++ args.Provider ++ "]"),
        true, 0⟩
    | some provs =>
      match dispatchProviders args.Provider provs args.Retry with
      | (n, none) => ⟨.success, true, n⟩
      | (n, some e) => ⟨.sendFailed e, true, n⟩

/-! ## Configuration manager (src/unnamed/part_002 lines 60-103) -/

/-- One resolve-and-load loop of ResetConfig (the email loop, lines 65-79,
and the identically shaped sms loop, lines 81-95). `get` is the registry
lookup (messageapi.GetEmail / messageapi.GetSMS), `kind` the word used in
the error messages. Output: the resolved bindings, the names whose Load
was invoked (in call order), and the error that aborted the loop, if any. -/
def loadList (get : String → Option Prov) (kind : String) (ignore : Bool) :
    List (String × RawConf) → List (String × Prov) × List String × Option Err
  | [] => ([], [], none)
  | (n, c) :: rest =>
    match get n with
    | none =>
      if ignore then loadList get kind ignore rest
      else ([], [], some ("have no the " ++ kind ++ " provider[" ++ n ++ "]"))
    | some p =>
      match p.load c with
      | some e =>
        ([], [n],
          some ("Failed to load the " ++ kind ++ " configuration, err=" ++ e))
      | none =>
        match loadList get kind ignore rest with
        | (es, tr, r) => ((n, p) :: es, n :: tr, r)

/-- app.ResetConfig (lines 60-103). `active` is the currently published
global `config`; the result is the new value of that global, the list of
providers whose Load ran, and the returned error. A nil draft returns
immediately; any resolution or Load failure aborts before the publish
step, leaving `active` in place. -/
def ResetConfig (getE getS : String → Option Prov) (active : Config)
    (conf : Option Config) : Config × List String × Option Err :=
  match conf with
  | none => (active, [], none)
  | some c =>
    match loadList getE "email" c.ignoreNotSupportedProvider c.Emails with
    | (_, tr1, some e) => (active, tr1, some e)
    | (es, tr1, none) =>
      match loadList getS "sms" c.ignoreNotSupportedProvider c.SMSes with
      | (_, tr2, some e) => (active, tr1 ++ tr2, some e)
      | (ss, tr2, none) =>
        ({ c with emails := es, smses := ss }, tr1 ++ tr2, none)

/-! ## The plain email provider (src/plain_email.go lines 28-65)

Only the pure validation part of Load is observable here; the SMTP state
it stores and the network send are abstracted (the send oracle of `Prov`). -/

/-- Decimal digit accumulation for strconv.ParseInt: fails on any
non-digit character. -/
def parseDecDigits : List Char → Nat → Option Nat
  | [], acc => some acc
  | c :: rest, acc =>
    if c.isDigit then parseDecDigits rest (acc * 10 + (c.toNat - 48))
    else none

/-- strconv.ParseInt(s, 10, _) before the bit-size range check: an
optional sign (character codes 45 and 43) followed by a nonempty digit
string. -/
def parseInt10 (s : String) : Option Int :=
  match s.data with
  | [] => none
  | c :: rest =>
    if c.toNat = 45 then
      if rest = [] then none
      else (parseDecDigits rest 0).map (fun n => -(n : Int))
    else if c.toNat = 43 then
      if rest = [] then none
      else (parseDecDigits rest 0).map (fun n => (n : Int))
    else (parseDecDigits s.data 0).map (fun n => (n : Int))

/-- strconv.ParseInt(s, 10, 16): out-of-range values are errors. -/
def parseInt16 (s : String) : Option Int :=
  match parseInt10 s with
  | none => none
  | some v => if v < -32768 ∨ 32767 < v then none else some v

/-- strconv.ParseInt(s, 10, 32): out-of-range values are errors. -/
def parseInt32 (s : String) : Option Int :=
  match parseInt10 s with
  | none => none
  | some v => if v < -2147483648 ∨ 2147483647 < v then none else some v

/-- plainEmail.Load (src/plain_email.go lines 28-65): requires host,
username, password and from; an explicit port must parse as a 16-bit
decimal integer. -/
def plainEmailLoad (m : RawConf) : Option Err :=
  match mlookup m "host" with
  | none => some "no the host configuration"
  | some _ =>
    match
      (match mlookup m "port" with
       | none => none
       | some p =>
         match parseInt16 p with
         | none => some ("invalid port: " ++ p)
         | some _ => none : Option Err)
    with
    | some e => some e
    | none =>
      match mlookup m "username" with
      | none => some "no the username configuration"
      | some _ =>
        match mlookup m "password" with
        | none => some "no the password configuration"
        | some _ =>
          match mlookup m "from" with
          | none => some "no the from configuration"
          | some _ => none

/-- The registered "plain" email provider, with its send outcomes left as
an oracle (network transport). -/
def plainEmail (send : Nat → Option Err) : Prov :=
  { load := plainEmailLoad, send := send }

/-! ## The /v1/config POST handler (src/unnamed/part_001 lines 104-166) -/

/-- The "key" entry of the JSON-decoded body: absent, present with a
non-string value, or a string. -/
inductive KeyField where
  | absent
  | notString
  | str (s : String)
deriving DecidableEq

/-- Outcome of a POST /v1/config request. -/
inductive ConfigPostResult where
  /-- 401: key absent or not a string while a server key is set. -/
  | unauthorized
  /-- 403: key present but different from the server key. -/
  | forbidden
  /-- 400: parseConfig or ResetConfig failed. -/
  | badRequest (e : Err)
  /-- 200: the new configuration was published. -/
  | okReset
deriving DecidableEq

/-- The POST branch of app.resetConfig (lines 124-162) after the body has
been JSON-decoded into its "key" entry `kf` and the remaining entries
`rest`. `parse` stands for app.parseConfig applied to those remaining
entries; keeping it a parameter makes the handler's outcome manifestly
independent of them on the rejection paths. Output: the HTTP-level
result, the value of the global `config` afterwards, and whether
ResetConfig was invoked. -/
def resetConfigPost {ρ : Type} (parse : ρ → Except Err Config)
    (getE getS : String → Option Prov) (act : Config) (kf : KeyField)
    (rest : ρ) : ConfigPostResult × Config × Bool :=
  let proceed : ConfigPostResult × Config × Bool :=
    match parse rest with
    | .error e => (.badRequest e, act, false)
    | .ok c =>
      match ResetConfig getE getS act (some c) with
      | (a2, _, some e) => (.badRequest e, a2, true)
      | (a2, _, none) => (.okReset, a2, true)
  if act.key = "" then proceed
  else
    match kf with
    | .absent => (.unauthorized, act, false)
    | .notString => (.unauthorized, act, false)
    | .str s => if s = act.key then proceed else (.forbidden, act, false)

/-- The GET-query retry argument handling of handleRequestArgs (lines
377-386): an empty value leaves the zero default; otherwise
strconv.ParseInt(retry, 10, 32), rejecting only parse failures. -/
def parseRetryArg (retryStr : String) : Except Err Int :=
  if retryStr = "" then .ok 0
  else
    match parseInt32 retryStr with
    | none => .error ("invalid retry value: " ++ retryStr)
    | some n => .ok n

/-! ## Concrete fixtures used by witnesses and counterexamples -/

/-- A provider whose Load and Send always succeed. -/
def okProv : Prov := { load := fun _ => none, send := fun _ => none }

/-- A provider whose Load succeeds and whose Send always fails. -/
def failProv : Prov := { load := fun _ => none, send := fun _ => some "boom" }

/-- A snapshot with one enabled provider per category. -/
def snapOne : Config :=
  { NewDefaultConfig "" with
    emails := [("p", okProv)], smses := [("q", okProv)] }

/-- A snapshot whose only email provider always fails to send. -/
def cfgRetry : Config :=
  { NewDefaultConfig "" with emails := [("p", failProv)] }

/-- A request naming provider "p" with a retry budget of 2. -/
def reqRetry : Request :=
  { Provider := "p", Phone := "", Content := "c", Subject := "s", To := "t",
    Attachments := [], Retry := 2 }

/-- Snapshot before a configuration swap: default email provider "a",
which is enabled. -/
def cfgOldC8 : Config :=
  { NewDefaultConfig "" with
    defaultEmailProvider := "a", emails := [("a", okProv)] }

/-- Snapshot after the swap: provider "a" is gone, replaced by "b". -/
def cfgNewC8 : Config :=
  { NewDefaultConfig "" with
    defaultEmailProvider := "b", emails := [("b", okProv)] }

/-- An email request with an empty provider selector. -/
def reqC8 : Request :=
  { Provider := "", Phone := "", Content := "c", Subject := "s", To := "t",
    Attachments := [], Retry := 0 }

/-- The registered "plain" provider with an always-successful transport. -/
def plainProv : Prov := plainEmail (fun _ => none)

/-- Registry lookup knowing only the "plain" email provider. -/
def regPlain : String → Option Prov :=
  fun n => if n = "plain" then some plainProv else none

/-- A draft configuration whose "plain" entry has an empty raw
configuration, so plainEmail.Load fails (missing host). -/
def draftC3 : Config :=
  { NewDefaultConfig "" with Emails := [("plain", [])] }

/-- A snapshot with no configured default providers and one enabled sms
provider. -/
def snapC5 : Config :=
  { NewDefaultConfig "" with
    defaultEmailProvider := "", smses := [("x", okProv)] }

/-- A request with an empty provider selector and a nonempty phone. -/
def reqC5 : Request :=
  { Provider := "", Phone := "123", Content := "c", Subject := "", To := "",
    Attachments := [], Retry := 0 }

/-- A request missing the required email "to" field and the required sms
"phone" field. -/
def reqC6 : Request :=
  { Provider := "p", Phone := "", Content := "c", Subject := "s", To := "",
    Attachments := [], Retry := 0 }

/-- A well-formed request carrying a negative retry value. -/
def reqNeg : Request :=
  { Provider := "p", Phone := "1", Content := "c", Subject := "s", To := "t",
    Attachments := [], Retry := -2 }

/-- The same request with the retry value cleared to 0. -/
def reqZero : Request :=
  { Provider := "p", Phone := "1", Content := "c", Subject := "s", To := "t",
    Attachments := [], Retry := 0 }

/-! ## Theorems -/

/-- C10: Calling ResetConfig with a nil configuration returns success (no
error) and leaves the currently active configuration snapshot entirely
unchanged: no provider Load is called (empty call trace) and the active
snapshot pointer is not replaced. -/
theorem C10_nil_reset_noop (getE getS : String → Option Prov)
    (active : Config) :
    ResetConfig getE getS active none = (active, [], none) := rfl

/-- C1 (code behaviour at the claim's failing input): a single named
provider whose send always fails, with retry budget 2, is attempted
exactly once — not 3 times — and the dispatcher returns that first (and
only) error. The retry branch of sendEmail/sendSMS performs one attempt
and decrements Retry without any loop, contradicting the Retry field's
own doc comment and the specification. -/
theorem C1_retry_budget_ignored :
    sendSingle (fun _ => some "boom") 2 = (1, some "boom") ∧
    sendEmailPipeline cfgRetry cfgRetry reqRetry =
      { result := .sendFailed "boom", lookedUp := true, attempts := 1 } := by
  exact ⟨rfl, rfl⟩

/-- C8 (counterexample): the code reads the active configuration pointer
twice — in handleRequestArgs and again in getEmail — so a configuration
swap between the two reads is observable: with the old snapshot (default
provider "a", enabled) at request start and the new snapshot (only "b")
at resolution, the request fails with an unknown-provider error, while
the single-snapshot dispatcher of the claim succeeds. -/
theorem C8_counterexample :
    sendEmailPipeline cfgOldC8 cfgNewC8 reqC8 ≠ sendEmailOneSnap cfgOldC8 reqC8 := by
  decide

/-- C8 (amended): a send request reads the active configuration pointer
twice, once in handleRequestArgs (category check, default substitution,
validation) and once in getEmail/getSMS (provider resolution); only when
both reads observe the same snapshot does the request behave exactly like
the specification's dispatcher that captures one snapshot at request
start and uses it for the whole lifetime. -/
theorem C8_single_snapshot_refinement (snap : Config) (r : Request) :
    sendEmailPipeline snap snap r = sendEmailOneSnap snap r ∧
    sendSMSPipeline snap snap r = sendSMSOneSnap snap r := ⟨rfl, rfl⟩

/-- When every outcome is a failure, the "all" loop runs to the end
regardless of the accumulator it started with: every provider is
attempted, every error is recorded, and the final error is the last
outcome. -/
theorem sendAllFrom_all_some (outs : List (Option Err)) (h : outs ≠ [])
    (hall : ∀ o ∈ outs, o.isSome) (acc : Option Err) :
    sendAllFrom outs acc = (outs.length, outs.reduceOption, outs.getLast h) := by
  induction outs generalizing acc with
  | nil => exact absurd rfl h
  | cons a rest ih =>
    obtain ⟨e, rfl⟩ : ∃ e, a = some e :=
      Option.isSome_iff_exists.mp (hall a (List.mem_cons_self a rest))
    cases rest with
    | nil => simp [sendAllFrom, List.getLast]
    | cons b rest2 =>
      have hne : b :: rest2 ≠ [] := by simp
      have hall2 : ∀ o ∈ b :: rest2, o.isSome :=
        fun o ho => hall o (List.mem_cons_of_mem _ ho)
      rw [show sendAllFrom (some e :: b :: rest2) acc =
            (match sendAllFrom (b :: rest2) (some e) with
             | (n, l, r) => (n + 1, e :: l, r)) from rfl,
          ih hne hall2 (some e)]
      simp [List.getLast_cons hne]

/-- When some outcome is a success, the "all" loop stops at the first one:
the attempts are the failing prefix plus the succeeding attempt, exactly
that prefix of errors is recorded, and the final error is nil. -/
theorem sendAllFrom_has_none (outs : List (Option Err)) (hn : none ∈ outs)
    (acc : Option Err) :
    sendAllFrom outs acc =
      ((outs.takeWhile (fun o => o.isSome)).length + 1,
       (outs.takeWhile (fun o => o.isSome)).reduceOption, none) := by
  induction outs generalizing acc with
  | nil => cases hn
  | cons a rest ih =>
    cases a with
    | none => simp [sendAllFrom, List.takeWhile]
    | some e =>
      have hn2 : none ∈ rest := by
        rcases List.mem_cons.mp hn with h | h
        · simp at h
        · exact h
      rw [show sendAllFrom (some e :: rest) acc =
            (match sendAllFrom rest (some e) with
             | (n, l, r) => (n + 1, e :: l, r)) from rfl,
          ih hn2 (some e)]
      simp [List.takeWhile]

/-- C2: dispatching with selector "all" over a non-empty outcome sequence
attempts providers one at a time: if every attempt fails, all providers
are attempted (each failure recorded, none aborting the rest) and the
returned error is the last one encountered; otherwise the loop stops at
the first success, returning success, with exactly the failures before
that success recorded. -/
theorem C2_all_dispatch (outs : List (Option Err)) (h : outs ≠ []) :
    ((∀ o ∈ outs, o.isSome) →
       sendAll outs = (outs.length, outs.reduceOption, outs.getLast h)) ∧
    (none ∈ outs →
       sendAll outs =
         ((outs.takeWhile (fun o => o.isSome)).length + 1,
          (outs.takeWhile (fun o => o.isSome)).reduceOption, none)) :=
  ⟨fun hall => sendAllFrom_all_some outs h hall none,
   fun hn => sendAllFrom_has_none outs hn none⟩

/-- Witness for C2 at concrete inputs: provider P1 fails and P2 succeeds,
so dispatch makes 2 attempts, records exactly the one failure from P1 and
succeeds; with two failing providers both are attempted and the second
error is returned. -/
theorem C2_all_dispatch_witness :
    sendAll [some "x", none] = (2, ["x"], none) ∧
    sendAll [some "x", some "y"] = (2, ["x", "y"], some "y") := by
  constructor
  · have h := (C2_all_dispatch [some "x", none] (by simp)).2 (by simp)
    simpa using h
  · have h := (C2_all_dispatch [some "x", some "y"] (by simp)).1 (by simp)
    simpa using h

/-- RegisterSMS and RegisterEmail have literally identical bodies. -/
theorem RegisterSMS_eq_RegisterEmail {α : Type} (reg : List (String × α))
    (n : String) (p : α) : RegisterSMS reg n p = RegisterEmail reg n p := rfl

/-- Appending a fresh binding at the end of the registry changes lookups
only for names not already bound. -/
theorem mlookup_append {α : Type} (l : List (String × α)) (n : String)
    (p : α) (m : String) :
    mlookup (l ++ [(n, p)]) m =
      (match mlookup l m with
       | some v => some v
       | none => if n = m then some p else none) := by
  induction l with
  | nil => simp [mlookup]
  | cons a rest ih =>
    obtain ⟨k, v⟩ := a
    by_cases hk : k = m
    · simp [mlookup, hk]
    · simp [mlookup, hk, ih]

/-- After a successful registration sequence starting from `reg`, a name
resolves to its binding in `reg` if it had one, and otherwise to the first
provider registered under it in the sequence. -/
theorem registerAllEmails_lookup {α : Type} (regs : List (String × α))
    (reg res : List (String × α))
    (h : registerAllEmails reg regs = .ok res) (m : String) :
    mlookup res m =
      (match mlookup reg m with
       | some v => some v
       | none => (regs.find? (fun q => q.1 == m)).map (fun q => q.2)) := by
  induction regs generalizing reg with
  | nil =>
    simp [registerAllEmails] at h
    subst h
    cases mlookup reg m <;> simp [List.find?]
  | cons a rest ih =>
    obtain ⟨n, p⟩ := a
    by_cases hdup : (mlookup reg n).isSome
    · simp [registerAllEmails, RegisterEmail, hdup] at h
    · simp only [registerAllEmails, RegisterEmail, hdup, Bool.false_eq_true,
        if_false, if_neg] at h
      rw [ih (reg ++ [(n, p)]) h, mlookup_append]
      cases hm : mlookup reg m with
      | some v => simp
      | none =>
        by_cases hnm : n = m
        · subst hnm
          simp [List.find?]
        · have hb : ((n, p).1 == m) = false := by
            simp [hnm]
          simp [List.find?, hb, hnm]

/-- The sms registration sequence coincides with the email one (the Go
functions are verbatim duplicates over their own maps). -/
theorem registerAllSMSes_eq_emails {α : Type} (regs : List (String × α))
    (reg0 : List (String × α)) :
    registerAllSMSes reg0 regs = registerAllEmails reg0 regs := by
  induction regs generalizing reg0 with
  | nil => rfl
  | cons a rest ih =>
    obtain ⟨n2, p2⟩ := a
    simp only [registerAllSMSes, registerAllEmails, RegisterSMS_eq_RegisterEmail]
    cases hr : RegisterEmail reg0 n2 p2 with
    | error e => rfl
    | ok reg2 => exact ih reg2

/-- C7: registering a second provider under an already-registered name in
a category fails deterministically with the duplicate-registration error
(a startup panic: no updated registry is produced, so nothing is silently
overwritten), and after any successful registration sequence each name
maps to the first provider registered under it. -/
theorem C7_registry_unique {α : Type} (reg : List (String × α)) (n : String)
    (p : α) (regs res : List (String × α)) :
    ((mlookup reg n).isSome →
       RegisterEmail reg n p = .error (n ++ " has been registered") ∧
       RegisterSMS reg n p = .error (n ++ " has been registered")) ∧
    (registerAllEmails [] regs = .ok res →
       ∀ m, mlookup res m = ((regs.find? (fun q => q.1 == m)).map (fun q => q.2))) ∧
    (registerAllSMSes [] regs = .ok res →
       ∀ m, mlookup res m = ((regs.find? (fun q => q.1 == m)).map (fun q => q.2))) := by
  refine ⟨fun hdup => ?_, fun h m => ?_, fun h m => ?_⟩
  · constructor <;> simp [RegisterEmail, RegisterSMS, hdup]
  · have := registerAllEmails_lookup regs [] res h m
    simpa [mlookup] using this
  · rw [registerAllSMSes_eq_emails regs []] at h
    have := registerAllEmails_lookup regs [] res h m
    simpa [mlookup] using this

/-- Witness for C7 at concrete inputs: re-registering "plain" fails with
the duplicate error in both categories, and after successfully
registering "a" then "b" each name maps to its first (only) provider. -/
theorem C7_registry_unique_witness :
    (RegisterEmail [("plain", 0)] "plain" 1 = .error "plain has been registered" ∧
     RegisterSMS [("plain", 0)] "plain" 1 = .error "plain has been registered") ∧
    mlookup [("a", 1), ("b", 2)] "b" = some 2 := by
  have h := C7_registry_unique [("plain", 0)] "plain" 1 [("a", 1), ("b", 2)]
    [("a", 1), ("b", 2)]
  refine ⟨h.1 (by decide), ?_⟩
  have h2 := h.2.1 rfl "b"
  rw [h2]
  rfl

/-- If some listed entry resolves to a registered provider whose Load
fails, the resolve-and-load loop ends in an error (either that failure or
an earlier abort). -/
theorem loadList_mem_fail (get : String → Option Prov) (kind : String)
    (ignore : Bool) (l : List (String × RawConf)) (n : String) (rc : RawConf)
    (p : Prov) (hmem : (n, rc) ∈ l) (hget : get n = some p)
    (hfail : (p.load rc).isSome) :
    ((loadList get kind ignore l).2.2).isSome := by
  induction l with
  | nil => cases hmem
  | cons a rest ih =>
    obtain ⟨m, c⟩ := a
    rcases List.mem_cons.mp hmem with heq | hmem2
    · cases heq
      obtain ⟨e, he⟩ := Option.isSome_iff_exists.mp hfail
      simp [loadList, hget, he]
    · cases hg : get m with
      | none =>
        by_cases hig : ignore
        · simpa [loadList, hg, hig] using ih hmem2
        · simp [loadList, hg, hig]
      | some q =>
        cases hl : q.load c with
        | some e => simp [loadList, hg, hl]
        | none =>
          have h2 := ih hmem2
          rcases hres : loadList get kind ignore rest with ⟨es, tr, r⟩
          rw [hres] at h2
          simpa [loadList, hg, hl, hres] using h2

/-- C3: if some listed provider's Load (or an earlier step of the same
Apply) fails, ResetConfig returns an error and the previously active
snapshot is untouched: no partial snapshot is published and the active
pointer still holds the old configuration. -/
theorem C3_load_failure_preserves_snapshot (getE getS : String → Option Prov)
    (active c : Config)
    (h : (∃ n rc p, (n, rc) ∈ c.Emails ∧ getE n = some p ∧ (p.load rc).isSome) ∨
         (∃ n rc p, (n, rc) ∈ c.SMSes ∧ getS n = some p ∧ (p.load rc).isSome)) :
    (ResetConfig getE getS active (some c)).1 = active ∧
    ((ResetConfig getE getS active (some c)).2.2).isSome := by
  rcases hE : loadList getE "email" c.ignoreNotSupportedProvider c.Emails
    with ⟨es, tr1, rE⟩
  cases rE with
  | some e => simp [ResetConfig, hE]
  | none =>
    have hS : ∃ n rc p, (n, rc) ∈ c.SMSes ∧ getS n = some p ∧
        (p.load rc).isSome := by
      rcases h with hEl | hSMS
      · exfalso
        obtain ⟨n, rc, p, hmem, hget, hfail⟩ := hEl
        have hx := loadList_mem_fail getE "email" c.ignoreNotSupportedProvider
          c.Emails n rc p hmem hget hfail
        rw [hE] at hx
        simp at hx
      · exact hSMS
    obtain ⟨n, rc, p, hmem, hget, hfail⟩ := hS
    have hs := loadList_mem_fail getS "sms" c.ignoreNotSupportedProvider
      c.SMSes n rc p hmem hget hfail
    rcases hS2 : loadList getS "sms" c.ignoreNotSupportedProvider c.SMSes
      with ⟨ss, tr2, rS⟩
    rw [hS2] at hs
    cases rS with
    | some e => simp [ResetConfig, hE, hS2]
    | none => simp at hs

/-- Witness for C3 at concrete inputs: applying a draft whose "plain"
email entry has an empty raw configuration (so plainEmail.Load fails for
lack of a host) errors out and leaves the default active snapshot in
place. -/
theorem C3_load_failure_preserves_snapshot_witness :
    (ResetConfig regPlain (fun _ => none) (NewDefaultConfig "")
        (some draftC3)).1 = NewDefaultConfig "" ∧
    ((ResetConfig regPlain (fun _ => none) (NewDefaultConfig "")
        (some draftC3)).2.2).isSome := by
  apply C3_load_failure_preserves_snapshot
  left
  refine ⟨"plain", [], plainProv, ?_, ?_, ?_⟩
  · simp [draftC3, NewDefaultConfig]
  · simp [regPlain]
  · simp [plainProv, plainEmail, plainEmailLoad, mlookup]

/-- C4: when a server-held admin key is configured, a configuration
update whose key entry is missing, of the wrong type, or different from
the admin key is rejected as unauthorized/forbidden, the active
configuration is unchanged and ResetConfig is never invoked — and this
holds for every possible remainder of the document and every parse
function, i.e. before any parsing of the rest of the document. -/
theorem C4_admin_key_guard {ρ : Type} (parse : ρ → Except Err Config)
    (getE getS : String → Option Prov) (act : Config) (kf : KeyField)
    (rest : ρ) (hkey : act.key ≠ "")
    (hbad : ∀ s, kf = .str s → s ≠ act.key) :
    ((resetConfigPost parse getE getS act kf rest).1 = .unauthorized ∨
     (resetConfigPost parse getE getS act kf rest).1 = .forbidden) ∧
    (resetConfigPost parse getE getS act kf rest).2.1 = act ∧
    (resetConfigPost parse getE getS act kf rest).2.2 = false := by
  cases kf with
  | absent => simp [resetConfigPost, hkey]
  | notString => simp [resetConfigPost, hkey]
  | str s =>
    have hs : s ≠ act.key := hbad s rfl
    simp [resetConfigPost, hkey, hs]

/-- Witness for C4 at concrete inputs: with admin key "secret" and a
submitted key "wrong", the update is rejected (forbidden here), the
active configuration stays, and ResetConfig is not called — whatever the
rest of the document would have parsed to. -/
theorem C4_admin_key_guard_witness :
    ((resetConfigPost (fun _ : Unit => Except.ok (NewDefaultConfig ""))
        (fun _ => none) (fun _ => none) (NewDefaultConfig "secret")
        (KeyField.str "wrong") ()).1 = ConfigPostResult.unauthorized ∨
     (resetConfigPost (fun _ : Unit => Except.ok (NewDefaultConfig ""))
        (fun _ => none) (fun _ => none) (NewDefaultConfig "secret")
        (KeyField.str "wrong") ()).1 = ConfigPostResult.forbidden) ∧
    (resetConfigPost (fun _ : Unit => Except.ok (NewDefaultConfig ""))
        (fun _ => none) (fun _ => none) (NewDefaultConfig "secret")
        (KeyField.str "wrong") ()).2.1 = NewDefaultConfig "secret" ∧
    (resetConfigPost (fun _ : Unit => Except.ok (NewDefaultConfig ""))
        (fun _ => none) (fun _ => none) (NewDefaultConfig "secret")
        (KeyField.str "wrong") ()).2.2 = false := by
  apply C4_admin_key_guard
  · decide
  · intro s hs
    cases hs
    decide

/-- C5: a request whose provider selector is empty receives the
category's configured default name; if that default is also unset, email
requests get the hardcoded fallback "plain" (so an email selector is
never left empty), while sms requests get the empty hardcoded default, so
with no configured sms default the selector stays empty and the request
is rejected as invalid ("the provider is empty"). -/
theorem C5_default_substitution (snap : Config) (r : Request)
    (hp : r.Provider = "") (hs : snap.smses.length > 0) :
    (substProvider true snap r.Provider =
       (if snap.defaultEmailProvider = "" then defaultEmailProvider
        else snap.defaultEmailProvider)) ∧
    substProvider true snap r.Provider ≠ "" ∧
    (substProvider false snap r.Provider =
       (if snap.defaultSMSProvider = "" then defaultSMSProvider
        else snap.defaultSMSProvider)) ∧
    (snap.defaultSMSProvider = "" →
       handleArgsSMS snap r = .error (.badRequest "the provider is empty")) := by
  refine ⟨?_, ?_, ?_, fun hd => ?_⟩
  · by_cases h : snap.defaultEmailProvider = "" <;> simp [substProvider, hp, h]
  · by_cases h : snap.defaultEmailProvider = "" <;>
      simp [substProvider, hp, h, defaultEmailProvider]
  · by_cases h : snap.defaultSMSProvider = "" <;>
      simp [substProvider, hp, h, defaultSMSProvider]
  · simp [handleArgsSMS, hs, substProvider, hp, hd, defaultSMSProvider,
      Request.validateSMS, Request.validate]

/-- Witness for C5 at concrete inputs: with no configured defaults, an
empty email selector becomes "plain" (nonempty), an empty sms selector
stays empty and the sms request is rejected with the provider-is-empty
validation error. -/
theorem C5_default_substitution_witness :
    (substProvider true snapC5 reqC5.Provider =
       (if snapC5.defaultEmailProvider = "" then defaultEmailProvider
        else snapC5.defaultEmailProvider)) ∧
    substProvider true snapC5 reqC5.Provider ≠ "" ∧
    (substProvider false snapC5 reqC5.Provider =
       (if snapC5.defaultSMSProvider = "" then defaultSMSProvider
        else snapC5.defaultSMSProvider)) ∧
    (snapC5.defaultSMSProvider = "" →
       handleArgsSMS snapC5 reqC5 = .error (.badRequest "the provider is empty")) := by
  apply C5_default_substitution
  · rfl
  · decide

/-- An email request with an empty "to" or "subject" never validates. -/
theorem validateEmail_missing (r : Request) (hm : r.To = "" ∨ r.Subject = "") :
    ∃ e, r.validateEmail = .error e := by
  unfold Request.validateEmail Request.validate
  by_cases hp : r.Provider = ""
  · exact ⟨"the provider is empty", by simp [hp]⟩
  · rcases hm with h | h
    · exact ⟨"the to is empty", by simp [hp, h]⟩
    · by_cases h2 : r.To = ""
      · exact ⟨"the to is empty", by simp [hp, h2]⟩
      · exact ⟨"the subject is empty", by simp [hp, h2, h]⟩

/-- An sms request with an empty "phone" never validates. -/
theorem validateSMS_missing (r : Request) (hm : r.Phone = "") :
    ∃ e, r.validateSMS = .error e := by
  unfold Request.validateSMS Request.validate
  by_cases hp : r.Provider = ""
  · exact ⟨"the provider is empty", by simp [hp]⟩
  · exact ⟨"the phone is empty", by simp [hp, hm]⟩

/-- C6: an inbound send request missing a required field (email: empty
"to" or "subject"; sms: empty "phone") is rejected with a validation
error (400) and the dispatcher is never reached: no provider lookup and
no send attempt takes place. -/
theorem C6_missing_field_rejected (s1 s2 : Config) (r : Request) :
    (s1.emails.length > 0 → r.To = "" ∨ r.Subject = "" →
       ∃ e, sendEmailPipeline s1 s2 r =
         { result := .badRequest e, lookedUp := false, attempts := 0 }) ∧
    (s1.smses.length > 0 → r.Phone = "" →
       ∃ e, sendSMSPipeline s1 s2 r =
         { result := .badRequest e, lookedUp := false, attempts := 0 }) := by
  constructor
  · intro hlen hm
    obtain ⟨e, he⟩ := validateEmail_missing
      { r with Provider := substProvider true s1 r.Provider }
      (by simpa using hm)
    exact ⟨e, by simp [sendEmailPipeline, handleArgsEmail, hlen, he]⟩
  · intro hlen hm
    obtain ⟨e, he⟩ := validateSMS_missing
      { r with Provider := substProvider false s1 r.Provider }
      (by simpa using hm)
    exact ⟨e, by simp [sendSMSPipeline, handleArgsSMS, hlen, he]⟩

/-- Witness for C6 at concrete inputs: a request with empty "to" (email)
and empty "phone" (sms) is rejected with 400 on both paths, with no
provider lookup and zero send attempts. -/
theorem C6_missing_field_rejected_witness :
    (∃ e, sendEmailPipeline snapOne snapOne reqC6 =
       { result := .badRequest e, lookedUp := false, attempts := 0 }) ∧
    (∃ e, sendSMSPipeline snapOne snapOne reqC6 =
       { result := .badRequest e, lookedUp := false, attempts := 0 }) := by
  have h := C6_missing_field_rejected snapOne snapOne reqC6
  exact ⟨h.1 (by decide) (Or.inl rfl), h.2 (by decide) rfl⟩

/-- Validating a request with a negative retry is the same as validating
it with retry 0. -/
theorem validate_clamp (r : Request) (h : r.Retry < 0) :
    r.validate = Request.validate { r with Retry := 0 } := by
  obtain ⟨pr, ph, co, su, to2, att, re⟩ := r
  simp only at h
  unfold Request.validate
  by_cases hp : pr = "" <;> simp [hp, h]

/-- validateEmail looks at a request only through validate. -/
theorem validateEmail_eq_of_validate (r r2 : Request)
    (hv : r.validate = r2.validate) : r.validateEmail = r2.validateEmail := by
  unfold Request.validateEmail
  rw [hv]

/-- validateSMS looks at a request only through validate. -/
theorem validateSMS_eq_of_validate (r r2 : Request)
    (hv : r.validate = r2.validate) : r.validateSMS = r2.validateSMS := by
  unfold Request.validateSMS
  rw [hv]

/-- Argument handling of an email request with a negative retry equals
that of the same request with retry 0. -/
theorem handleArgsEmail_clamp (s : Config) (r : Request) (h : r.Retry < 0) :
    handleArgsEmail s r = handleArgsEmail s { r with Retry := 0 } := by
  have hv := validateEmail_eq_of_validate
    { r with Provider := substProvider true s r.Provider }
    { { r with Provider := substProvider true s r.Provider } with Retry := 0 }
    (validate_clamp { r with Provider := substProvider true s r.Provider } h)
  show (if s.emails.length > 0 then
      match Request.validateEmail
          { r with Provider := substProvider true s r.Provider } with
      | .error e => Except.error (SendResult.badRequest e)
      | .ok r2 => Except.ok r2
    else Except.error SendResult.notImplemented)
    = (if s.emails.length > 0 then
      match Request.validateEmail
          { Provider := substProvider true s r.Provider, Phone := r.Phone,
            Content := r.Content, Subject := r.Subject, To := r.To,
            Attachments := r.Attachments, Retry := 0 } with
      | .error e => Except.error (SendResult.badRequest e)
      | .ok r2 => Except.ok r2
    else Except.error SendResult.notImplemented)
  rw [hv]

/-- Argument handling of an sms request with a negative retry equals that
of the same request with retry 0. -/
theorem handleArgsSMS_clamp (s : Config) (r : Request) (h : r.Retry < 0) :
    handleArgsSMS s r = handleArgsSMS s { r with Retry := 0 } := by
  have hv := validateSMS_eq_of_validate
    { r with Provider := substProvider false s r.Provider }
    { { r with Provider := substProvider false s r.Provider } with Retry := 0 }
    (validate_clamp { r with Provider := substProvider false s r.Provider } h)
  show (if s.smses.length > 0 then
      match Request.validateSMS
          { r with Provider := substProvider false s r.Provider } with
      | .error e => Except.error (SendResult.badRequest e)
      | .ok r2 => Except.ok r2
    else Except.error SendResult.notImplemented)
    = (if s.smses.length > 0 then
      match Request.validateSMS
          { Provider := substProvider false s r.Provider, Phone := r.Phone,
            Content := r.Content, Subject := r.Subject, To := r.To,
            Attachments := r.Attachments, Retry := 0 } with
      | .error e => Except.error (SendResult.badRequest e)
      | .ok r2 => Except.ok r2
    else Except.error SendResult.notImplemented)
  rw [hv]

/-- C9: a send request carrying a negative retry value is not rejected by
validation: the GET query parser accepts any integer it can parse
(negative included), validate silently clamps the value to 0, and the
whole request — email or sms — behaves exactly as if no retry had been
requested. -/
theorem C9_negative_retry (s1 s2 : Config) (r : Request) (h : r.Retry < 0) :
    (∀ s n, parseInt32 s = some n → parseRetryArg s = .ok n) ∧
    (r.Provider ≠ "" → r.validate = .ok { r with Retry := 0 }) ∧
    sendEmailPipeline s1 s2 r = sendEmailPipeline s1 s2 { r with Retry := 0 } ∧
    sendSMSPipeline s1 s2 r = sendSMSPipeline s1 s2 { r with Retry := 0 } := by
  refine ⟨fun s n hp => ?_, fun hp => ?_, ?_, ?_⟩
  · have hs : s ≠ "" := by
      intro he
      rw [he, show parseInt32 "" = (none : Option Int) from rfl] at hp
      cases hp
    simp [parseRetryArg, hs, hp]
  · simp [Request.validate, hp, h]
  · unfold sendEmailPipeline
    rw [handleArgsEmail_clamp s1 r h]
  · unfold sendSMSPipeline
    rw [handleArgsSMS_clamp s1 r h]

/-- Witness for C9 at concrete inputs: the query value "-2" parses and is
accepted, validation clamps the request's retry -2 to 0, and the email
pipeline result is the same as with retry 0. -/
theorem C9_negative_retry_witness :
    parseRetryArg "-2" = .ok (-2) ∧
    reqNeg.validate = .ok reqZero ∧
    sendEmailPipeline snapOne snapOne reqNeg =
      sendEmailPipeline snapOne snapOne reqZero := by
  have h := C9_negative_retry snapOne snapOne reqNeg (by decide)
  refine ⟨h.1 "-2" (-2) (by decide), ?_, ?_⟩
  · simpa [reqNeg, reqZero] using h.2.1 (by decide)
  · simpa [reqNeg, reqZero] using h.2.2.1

end MessageApi
